import Mathlib

/-!
Shallow embedding of `src/app.py`: a Streamlit form that forwards user text
plus a selected expert persona to an OpenAI chat model via LangChain.

The embedding models:
  - `system_message_for` — the persona-to-instruction lookup (app.py lines 15-31);
  - `generate_response` — prompt assembly and the remote chat call
    (app.py lines 35-50), with the remote endpoint abstracted as an oracle;
  - `api_key_exists` — the credential presence check (app.py lines 98-100),
    with the OS environment and the Streamlit secrets store each modelled as
    an `Option String`;
  - the submission handler (app.py lines 102-119), instrumented with a
    Boolean recording whether the remote call was made.
-/

/-- Instruction string for the data-scientist persona (app.py lines 17-22,
the concatenation of the adjacent Python string literals). -/
def dataScientistInstruction : String :=
  "あなたは一流のデータサイエンティストです。前提・仮説・検証手法・評価指標・限界を順序立てて説明し、必要なら簡潔な数式や疑似コードも示してください。専門用語は中高生にも伝わるよう短く補足してください。"

/-- Instruction string for the product-manager persona (app.py lines 23-27). -/
def productManagerInstruction : String :=
  "あなたは熟練のプロダクトマネージャーです。ユーザ課題→解決案→成功指標(KPI)→リスク/代替案→次アクションの順で提案してください。箇条書きを基本に、過度に長文にしないでください。"

/-- Generic fallback instruction for unrecognized personas (app.py line 30). -/
def fallbackInstruction : String :=
  "あなたは有能なアシスタントです。簡潔かつ正確に答えてください。"

/-- Embeds `system_message_for` (app.py lines 15-31): the two-entry dict
`presets` is looked up with `.get`, defaulting to the fallback instruction. -/
def system_message_for (expert_role : String) : String :=
  if expert_role = "データサイエンティスト" then dataScientistInstruction
  else if expert_role = "プロダクトマネージャー" then productManagerInstruction
  else fallbackInstruction

/-- A chat message as assembled by `ChatPromptTemplate.from_messages`:
a role tag and a content string. -/
structure Message where
  role : String
  content : String
deriving DecidableEq

/-- Fuel-indexed substitution of a pattern by a value inside a character
list; `substFuel pat val fuel l` replaces each occurrence of `pat` in `l`
by `val`, provided `fuel ≥ l.length`.  This models the f-string template
formatting LangChain performs on each message when the prompt is invoked. -/
def substFuel (pat val : List Char) : Nat → List Char → List Char
  | _, [] => []
  | 0, l => l
  | fuel + 1, c :: rest =>
    if pat ≠ [] ∧ (c :: rest).take pat.length = pat then
      val ++ substFuel pat val fuel (rest.drop (pat.length - 1))
    else
      c :: substFuel pat val fuel rest

/-- Substitution of every occurrence of `pat` in `l` by `val`. -/
def substituteVar (pat val l : List Char) : List Char :=
  substFuel pat val l.length l

/-- The template placeholder of the human message (app.py line 45). -/
def inputVarPat : List Char := "{input_text}".data

/-- Formats one message template with the binding
`input_text := user_text`, as `chain.invoke` does (app.py line 50). -/
def formatTemplate (tmpl user_text : String) : String :=
  ⟨substituteVar inputVarPat user_text.data tmpl.data⟩

/-- The message templates passed to `ChatPromptTemplate.from_messages`
(app.py lines 42-47): a system message holding the resolved persona
instruction, then a human message holding the `input_text` placeholder. -/
def chat_prompt_template (expert_role : String) : List Message :=
  [⟨"system", system_message_for expert_role⟩,
   ⟨"human", "{input_text}"⟩]

/-- The conversation actually sent on `chain.invoke` for a given user text
and persona: each template message formatted with
`input_text := user_text`. -/
def generate_response_prompt (user_text expert_role : String) : List Message :=
  (chat_prompt_template expert_role).map
    (fun m => ⟨m.role, formatTemplate m.content user_text⟩)

/-- Configuration of the `ChatOpenAI` client: model identifier and sampling
temperature (app.py lines 37-40). -/
structure ChatOpenAIConfig where
  model : String
  temperature : ℚ
deriving DecidableEq

/-- The `ChatOpenAI` client constructed inside `generate_response`
(app.py lines 37-40); it ignores the function's arguments. -/
def generate_response_llm (user_text expert_role : String) : ChatOpenAIConfig :=
  ⟨"gpt-4o-mini", 0.2⟩

/-- Embeds `generate_response` (app.py lines 35-50).  The remote chat
endpoint (network call, parsing by `StrOutputParser`) is abstracted as an
oracle taking the client configuration and the assembled conversation and
returning either generated text or an exception message. -/
def generate_response (oracle : ChatOpenAIConfig → List Message → Except String String)
    (user_text expert_role : String) : Except String String :=
  oracle (generate_response_llm user_text expert_role)
    (generate_response_prompt user_text expert_role)

/-- Python truthiness of an optional string: `None` and the empty string
are falsy, every other string is truthy. -/
def truthy : Option String → Bool
  | none => false
  | some s => !(s == "")

/-- Python's short-circuiting `or` on optional strings: returns the first
operand when it is truthy, the second otherwise. -/
def pythonOr (a b : Option String) : Option String :=
  if truthy a then a else b

/-- Embeds `api_key_exists` (app.py lines 98-100):
`bool(os.getenv("OPENAI_API_KEY") or st.secrets.get("OPENAI_API_KEY", None))`,
with the OS environment value and the secrets-store value passed in as
`Option String`. -/
def api_key_exists (env secrets : Option String) : Bool :=
  truthy (pythonOr env secrets)

/-- The characters Python `str.isspace()` recognizes and `str.strip()`
strips: the ASCII whitespace and separators 0x09-0x0d, 0x1c-0x1f and
space, plus the Unicode whitespace 0x85, 0xa0, U+1680, U+2000-U+200A,
U+2028, U+2029, U+202F, U+205F and U+3000 (the ideographic space). -/
def pyWhitespace : List Char :=
  [' ', '\t', '\n', '\r', '\x0b', '\x0c',
   '\x1c', '\x1d', '\x1e', '\x1f',
   '\x85', '\xa0', '\u1680',
   '\u2000', '\u2001', '\u2002', '\u2003', '\u2004', '\u2005',
   '\u2006', '\u2007', '\u2008', '\u2009', '\u200a',
   '\u2028', '\u2029', '\u202f', '\u205f', '\u3000']

/-- Python whitespace test, as used by `str.strip()`. -/
def pyIsSpace (c : Char) : Bool :=
  pyWhitespace.contains c

/-- Python `str.strip()`: removes leading and trailing whitespace. -/
def pyStrip (s : String) : String :=
  ⟨((s.data.dropWhile pyIsSpace).reverse.dropWhile pyIsSpace).reverse⟩

/-- The warning shown on empty input (app.py line 104). -/
def emptyInputWarning : String := "入力テキストを入力してください。"

/-- The error shown when no API key is found (app.py lines 106-108). -/
def missingKeyMessage : String :=
  "OpenAI API キーが見つかりませんでした。ローカルは `.env`、デプロイは Secrets に `OPENAI_API_KEY` を設定してください。"

/-- The fixed text prepended to the exception message in the error banner
(app.py line 116). -/
def errorBanner : String := "エラーが発生しました: "

/-- The static troubleshooting hint shown after a remote failure
(app.py lines 117-119). -/
def troubleshootHint : String :=
  "API キー、モデル名、ネットワーク、依存関係バージョン（langchain / langchain-openai）をご確認ください。"

/-- What the UI displays after a submission is handled. -/
inductive Outcome where
  | warned (msg : String)
  | credentialError (msg : String)
  | answered (answer : String)
  | failed (errMsg : String) (hint : String)
deriving DecidableEq

/-- Embeds the submission handler (app.py lines 102-119): the empty-text
guard, then the credential guard, then the guarded remote call wrapped in
try/except.  The second component records whether `generate_response` was
invoked. -/
def handle_submission (oracle : ChatOpenAIConfig → List Message → Except String String)
    (env secrets : Option String) (user_text role : String) : Outcome × Bool :=
  if pyStrip user_text = "" then
    (Outcome.warned emptyInputWarning, false)
  else if api_key_exists env secrets = false then
    (Outcome.credentialError missingKeyMessage, false)
  else
    match generate_response oracle user_text role with
    | Except.ok answer => (Outcome.answered answer, true)
    | Except.error e => (Outcome.failed (errorBanner ++ e) troubleshootHint, true)

/-- A concrete oracle that always succeeds, used to instantiate theorems
at concrete inputs. -/
def okOracle : ChatOpenAIConfig → List Message → Except String String :=
  fun _ _ => Except.ok "了解しました。"

/-- A concrete oracle that always raises, used to instantiate theorems
at concrete inputs. -/
def failOracle : ChatOpenAIConfig → List Message → Except String String :=
  fun _ _ => Except.error "boom"

/-! ### Helper lemmas -/

theorem substFuel_nil (pat val : List Char) (fuel : Nat) :
    substFuel pat val fuel [] = [] := by
  cases fuel <;> rfl

theorem substFuel_disjoint (pat val : List Char) :
    ∀ (fuel : Nat) (l : List Char), (∀ c ∈ l, c ∉ pat) →
      substFuel pat val fuel l = l := by
  intro fuel
  induction fuel with
  | zero => intro l _; cases l <;> rfl
  | succ n ih =>
    intro l h
    cases l with
    | nil => rfl
    | cons c rest =>
      simp only [substFuel]
      rw [if_neg]
      · rw [ih rest (fun x hx => h x (List.mem_cons_of_mem _ hx))]
      · rintro ⟨hne, htake⟩
        cases pat with
        | nil => exact hne rfl
        | cons p pt =>
          rw [List.length_cons, List.take_succ_cons] at htake
          have hc : c = p := (List.cons.injEq _ _ _ _ ▸ htake).1
          exact h c (List.mem_cons_self c rest)
            (by rw [hc]; exact List.mem_cons_self p pt)

theorem substFuel_self (pat val : List Char) (h : pat ≠ []) :
    substFuel pat val pat.length pat = val := by
  cases pat with
  | nil => exact absurd rfl h
  | cons p pt =>
    show substFuel (p :: pt) val (pt.length + 1) (p :: pt) = val
    simp only [substFuel]
    rw [if_pos ⟨List.cons_ne_nil p pt, by rw [List.take_length]⟩]
    rw [show (p :: pt).length - 1 = pt.length from by simp]
    rw [List.drop_length, substFuel_nil, List.append_nil]

theorem formatTemplate_var (x : String) :
    formatTemplate "{input_text}" x = x := by
  show String.mk (substFuel inputVarPat x.data inputVarPat.length inputVarPat) = x
  rw [substFuel_self inputVarPat x.data (by decide)]

theorem formatTemplate_of_disjoint (s x : String)
    (h : ∀ c ∈ s.data, c ∉ inputVarPat) :
    formatTemplate s x = s := by
  show String.mk (substFuel inputVarPat x.data s.data.length s.data) = s
  rw [substFuel_disjoint inputVarPat x.data s.data.length s.data h]

theorem formatTemplate_system (expert_role x : String) :
    formatTemplate (system_message_for expert_role) x =
      system_message_for expert_role := by
  unfold system_message_for
  split_ifs with h1 h2
  · exact formatTemplate_of_disjoint _ _ (by decide)
  · exact formatTemplate_of_disjoint _ _ (by decide)
  · exact formatTemplate_of_disjoint _ _ (by decide)

theorem dropWhile_eq_nil_of_all (p : Char → Bool) (l : List Char)
    (h : ∀ c ∈ l, p c = true) : l.dropWhile p = [] := by
  induction l with
  | nil => rfl
  | cons c rest ih =>
    rw [List.dropWhile_cons, if_pos (h c (List.mem_cons_self _ _))]
    exact ih (fun x hx => h x (List.mem_cons_of_mem _ hx))

theorem pyStrip_eq_empty (s : String) (h : s.data.all pyIsSpace = true) :
    pyStrip s = "" := by
  have h' : ∀ c ∈ s.data, pyIsSpace c = true := by
    simpa [List.all_eq_true] using h
  unfold pyStrip
  rw [dropWhile_eq_nil_of_all _ _ h']
  rfl

/-! ### Claim theorems -/

/-- C1: for every user text and persona identifier, the conversation
assembled by `generate_response` has exactly two messages in order: a
system message holding the resolver's instruction for that identifier,
then a human message holding the user text unmodified. -/
theorem assembled_prompt_two_messages (user_text expert_role : String) :
    generate_response_prompt user_text expert_role =
      [⟨"system", system_message_for expert_role⟩, ⟨"human", user_text⟩] := by
  simp only [generate_response_prompt, chat_prompt_template, List.map_cons,
    List.map_nil, formatTemplate_system, formatTemplate_var]

/-- C2: every persona identifier other than the two known labels resolves
to the fixed generic fallback instruction. -/
theorem unknown_persona_fallback (role : String)
    (h1 : role ≠ "データサイエンティスト") (h2 : role ≠ "プロダクトマネージャー") :
    system_message_for role = fallbackInstruction := by
  unfold system_message_for
  rw [if_neg h1, if_neg h2]

/-- C2 witness: the unrecognized identifier "unknown-role" resolves to the
fallback instruction. -/
theorem unknown_persona_fallback_witness :
    ("unknown-role" : String) ≠ "データサイエンティスト" ∧
    ("unknown-role" : String) ≠ "プロダクトマネージャー" ∧
    system_message_for "unknown-role" = fallbackInstruction :=
  ⟨by decide, by decide,
   unknown_persona_fallback "unknown-role" (by decide) (by decide)⟩

/-- C3: the two known persona identifiers resolve to their respective fixed
instruction strings, which differ from the fallback. -/
theorem known_personas_exact :
    system_message_for "データサイエンティスト" = dataScientistInstruction ∧
    system_message_for "プロダクトマネージャー" = productManagerInstruction ∧
    dataScientistInstruction ≠ fallbackInstruction ∧
    productManagerInstruction ≠ fallbackInstruction := by
  refine ⟨by decide, by decide, by decide, by decide⟩

/-- C4: a submission whose text consists only of whitespace (including the
empty text) yields the warning branch and never invokes
`generate_response`, regardless of persona, credential state or oracle. -/
theorem empty_input_no_call
    (oracle : ChatOpenAIConfig → List Message → Except String String)
    (env secrets : Option String) (user_text role : String)
    (h : user_text.data.all pyIsSpace = true) :
    handle_submission oracle env secrets user_text role =
      (Outcome.warned emptyInputWarning, false) := by
  unfold handle_submission
  rw [if_pos (pyStrip_eq_empty user_text h)]

/-- C4 witness: submitting whitespace-only text with a credential present
yields the warning and no remote call. -/
theorem empty_input_no_call_witness :
    ("  \n\u3000".data.all pyIsSpace = true) ∧
    handle_submission okOracle (some "sk-test") none "  \n\u3000" "データサイエンティスト" =
      (Outcome.warned emptyInputWarning, false) :=
  ⟨by decide,
   empty_input_no_call okOracle (some "sk-test") none "  \n\u3000" "データサイエンティスト"
     (by decide)⟩

/-- C5: with no credential in the environment nor in the secrets store, a
submission with non-blank text yields the credential error, and no
submission whatsoever invokes `generate_response`. -/
theorem missing_credential_no_call
    (oracle : ChatOpenAIConfig → List Message → Except String String)
    (user_text role : String) (h : pyStrip user_text ≠ "") :
    handle_submission oracle none none user_text role =
      (Outcome.credentialError missingKeyMessage, false) ∧
    (∀ t r : String, (handle_submission oracle none none t r).2 = false) := by
  constructor
  · unfold handle_submission
    rw [if_neg h, if_pos (show api_key_exists none none = false from rfl)]
  · intro t r
    unfold handle_submission
    by_cases ht : pyStrip t = ""
    · rw [if_pos ht]
    · rw [if_neg ht, if_pos (show api_key_exists none none = false from rfl)]

/-- C5 witness: submitting "hello" with no credential yields the credential
error and no remote call. -/
theorem missing_credential_no_call_witness :
    pyStrip "hello" ≠ "" ∧
    handle_submission okOracle none none "hello" "プロダクトマネージャー" =
      (Outcome.credentialError missingKeyMessage, false) :=
  ⟨by decide,
   (missing_credential_no_call okOracle "hello" "プロダクトマネージャー" (by decide)).1⟩

/-- C6: whenever the remote call raises (the oracle returns any exception
message `e`), the handler yields the generic error banner built from `e`
plus the static troubleshooting hint — the same outcome whatever the cause
`e` — and, being a total function, does not crash. -/
theorem remote_error_generic
    (oracle : ChatOpenAIConfig → List Message → Except String String)
    (env secrets : Option String) (user_text role e : String)
    (h1 : pyStrip user_text ≠ "") (h2 : api_key_exists env secrets = true)
    (h3 : generate_response oracle user_text role = Except.error e) :
    handle_submission oracle env secrets user_text role =
      (Outcome.failed (errorBanner ++ e) troubleshootHint, true) := by
  unfold handle_submission
  rw [if_neg h1, if_neg (by simp [h2]), h3]

/-- C6 witness: an oracle that raises "boom" yields the generic error path
at a concrete submission. -/
theorem remote_error_generic_witness :
    pyStrip "こんにちは" ≠ "" ∧
    api_key_exists (some "sk-test") none = true ∧
    generate_response failOracle "こんにちは" "データサイエンティスト" =
      Except.error "boom" ∧
    handle_submission failOracle (some "sk-test") none "こんにちは" "データサイエンティスト" =
      (Outcome.failed (errorBanner ++ "boom") troubleshootHint, true) :=
  ⟨by decide, by decide, rfl,
   remote_error_generic failOracle (some "sk-test") none "こんにちは"
     "データサイエンティスト" "boom" (by decide) (by decide) rfl⟩

/-- C7: the empty-text guard is decided before the credential guard: a
submission with blank text and a missing credential yields the empty-input
warning, not the credential error, and makes no remote call. -/
theorem empty_guard_before_credential_guard
    (oracle : ChatOpenAIConfig → List Message → Except String String)
    (env secrets : Option String) (user_text role : String)
    (h1 : pyStrip user_text = "") (h2 : api_key_exists env secrets = false) :
    handle_submission oracle env secrets user_text role =
      (Outcome.warned emptyInputWarning, false) := by
  unfold handle_submission
  rw [if_pos h1]

/-- C7 witness: empty text together with a missing credential yields the
warning branch. -/
theorem empty_guard_before_credential_guard_witness :
    pyStrip "" = "" ∧ api_key_exists none none = false ∧
    handle_submission okOracle none none "" "データサイエンティスト" =
      (Outcome.warned emptyInputWarning, false) :=
  ⟨rfl, rfl,
   empty_guard_before_credential_guard okOracle none none "" "データサイエンティスト"
     rfl rfl⟩

/-- C8: every invocation of the completion client uses the fixed model
"gpt-4o-mini" and the fixed temperature 0.2, independent of the user text
and persona: the constructed client equals that constant configuration and
the oracle is always called with it. -/
theorem fixed_model_and_temperature
    (oracle : ChatOpenAIConfig → List Message → Except String String)
    (user_text expert_role : String) :
    generate_response_llm user_text expert_role = ⟨"gpt-4o-mini", 0.2⟩ ∧
    generate_response oracle user_text expert_role =
      oracle ⟨"gpt-4o-mini", 0.2⟩ (generate_response_prompt user_text expert_role) :=
  ⟨rfl, rfl⟩

/-- C9: the persona resolver is total and deterministic (it is a Lean
function), and every identifier resolves to a non-empty instruction — one
of the three fixed instruction strings. -/
theorem resolver_total_nonempty (role : String) :
    system_message_for role ≠ "" ∧
    (system_message_for role = dataScientistInstruction ∨
     system_message_for role = productManagerInstruction ∨
     system_message_for role = fallbackInstruction) := by
  unfold system_message_for
  split_ifs with h1 h2
  · exact ⟨by decide, Or.inl rfl⟩
  · exact ⟨by decide, Or.inr (Or.inl rfl)⟩
  · exact ⟨by decide, Or.inr (Or.inr rfl)⟩

/-- C10: the credential guard is truthiness-based: `api_key_exists` holds
exactly when the environment value or, failing that, the secrets value is a
non-empty string; an empty string in both places counts as no credential. -/
theorem api_key_exists_truthy (env secrets : Option String) :
    (api_key_exists env secrets = true ↔
      (truthy env = true ∨ truthy secrets = true)) ∧
    api_key_exists (some "") (some "") = false := by
  constructor
  · unfold api_key_exists pythonOr
    cases env with
    | none => simp [truthy]
    | some a =>
      by_cases ha : a = ""
      · subst ha; simp [truthy]
      · simp [truthy, ha]
  · rfl

/-- C10 witness: a non-empty environment key counts as present; empty
strings in both places count as absent. -/
theorem api_key_exists_truthy_witness :
    api_key_exists (some "sk-test") none = true ∧
    api_key_exists (some "") (some "") = false :=
  ⟨(api_key_exists_truthy (some "sk-test") none).1.mpr (Or.inl (by decide)),
   (api_key_exists_truthy (some "") (some "")).2⟩
